import Mathlib

/-!
Shallow embedding of the Boot-Controller repository
(src/OS_Controller.py and src/OS_Controller_Windows.py).

External processes (subprocess.run) are modelled by an explicit
environment function that maps the spawned argument vector (and, on
Linux, the text fed to stdin) to a `SpawnOutcome`.  Python exceptions
that escape a function are modelled with `Except.error`.  GUI dialogs
are modelled as values (`UiOutcome`); the logging collaborator is a
pure sink and is not modelled.
-/

namespace BootCtl

/-- The single-quote character (codepoint 39), used by the GRUB
menu-entry pattern of OS_Controller.py line 46. -/
def squote : Char := Char.ofNat 39

/-- The star character, the optional active marker in efibootmgr
output (OS_Controller.py line 60). -/
def star : Char := Char.ofNat 42

/-- Line feed, the line separator used to model str.splitlines. -/
def lf : Char := Char.ofNat 10

/-- Outcome of one Python `subprocess.run` call.
`completed` carries returncode, stdout and stderr.  `fileNotFound`
models the FileNotFoundError raised when the executable is absent.
`calledProcessError` models subprocess.CalledProcessError; note that
`subprocess.run` without `check=True` (as used everywhere in this
repository) never actually raises it, but the source's except clauses
name it, so the embedding keeps the case. -/
inductive SpawnOutcome where
  | completed (returncode : Int) (stdout stderr : String)
  | fileNotFound
  | calledProcessError (stderr : String)
deriving DecidableEq

/-- The (success, error-message) pair returned by run_sudo_command in
both source files. -/
structure CommandResult where
  success : Bool
  errorMsg : Option String
deriving DecidableEq

/-- Python-style whitespace test used by str.strip / str.split. -/
def pyWhitespace (c : Char) : Bool :=
  c = Char.ofNat 32 || c = Char.ofNat 9 || c = Char.ofNat 10 ||
  c = Char.ofNat 13 || c = Char.ofNat 12 || c = Char.ofNat 11

/-- Python str.strip on a character list. -/
def trimChars (l : List Char) : List Char :=
  ((l.dropWhile pyWhitespace).reverse.dropWhile pyWhitespace).reverse

/-- Python str.split(sep) for a one-character separator: always
returns at least one (possibly empty) piece. -/
def splitOnChar (sep : Char) : List Char → List (List Char)
  | [] => [[]]
  | c :: cs =>
    match splitOnChar sep cs with
    | [] => if c = sep then [[], []] else [[c]]
    | l :: ls => if c = sep then [] :: l :: ls else (c :: l) :: ls

/-- Python " ".join, as used in the log/error message of
run_sudo_command. -/
def joinWithSpace : List String → String
  | [] => ""
  | [s] => s
  | s :: rest => s ++ " " ++ joinWithSpace rest

/-- Shallow embedding of run_sudo_command (OS_Controller.py lines
85-102).  The environment maps the argv passed to subprocess.run and
the stdin text to a `SpawnOutcome`.  A non-zero exit yields a failed
`CommandResult` with the trimmed stderr; a zero exit yields success.
The except clause of the source only catches
subprocess.CalledProcessError, so a FileNotFoundError raised while
spawning `sudo` escapes as an uncaught exception (`Except.error`). -/
def run_sudo_command (commandList : List String) (password : String)
    (env : List String → String → SpawnOutcome) : Except String CommandResult :=
  match env (["sudo", "-S"] ++ commandList) (password ++ "\n") with
  | SpawnOutcome.completed rc _ stderrText =>
    if rc ≠ 0 then
      Except.ok ⟨false, some ("Command failed: " ++ joinWithSpace commandList ++ "\n"
        ++ String.mk (trimChars stderrText.toList))⟩
    else
      Except.ok ⟨true, none⟩
  | SpawnOutcome.fileNotFound =>
    Except.error "FileNotFoundError"
  | SpawnOutcome.calledProcessError e =>
    Except.ok ⟨false, some ("Sudo command failed: " ++ e)⟩

namespace Windows

/-- Shallow embedding of run_sudo_command (OS_Controller_Windows.py
lines 66-82).  The source passes no `input=` argument to
subprocess.run, so the spawn outcome is a function of the argv alone;
the `password` parameter is received but never used.  As on Linux,
only subprocess.CalledProcessError is caught, so a FileNotFoundError
raised while spawning `runas` escapes. -/
def run_sudo_command (commandList : List String) (password : String)
    (env : List String → SpawnOutcome) : Except String CommandResult :=
  match env (["runas", "/user:Administrator"] ++ commandList) with
  | SpawnOutcome.completed rc _ stderrText =>
    if rc ≠ 0 then
      Except.ok ⟨false, some ("Command failed: " ++ joinWithSpace commandList ++ "\n"
        ++ String.mk (trimChars stderrText.toList))⟩
    else
      Except.ok ⟨true, none⟩
  | SpawnOutcome.fileNotFound =>
    Except.error "FileNotFoundError"
  | SpawnOutcome.calledProcessError e =>
    Except.ok ⟨false, some ("Sudo command failed: " ++ e)⟩

end Windows

/-- Python truthiness filter for an optional string: both None and
the empty string are falsy (`if not index`, `if sudo_password`). -/
def optTruthy : Option String → Option String
  | none => none
  | some s => if s = "" then none else some s

/-- Result of one call to OSBootSelector.prompt_for_password
(OS_Controller.py lines 173-187), together with the final state of
the global credential cache `sudo_password`.  `exhausted` is a model
artifact: the scripted dialog responses ran out while the loop was
still running.  `raised` models an uncaught Python exception escaping
from the validation call. -/
inductive PromptResult where
  | returned (password? : Option String) (cache : Option String)
  | exhausted (cache : Option String)
  | raised (err : String) (cache : Option String)
deriving DecidableEq

/-- Shallow embedding of OSBootSelector.prompt_for_password
(OS_Controller.py lines 173-187).  `cache` is the global
`sudo_password`; `inputs` scripts the successive dialog responses
(`none` = the user pressed Cancel, `some p` = entered `p`).  Returns
the prompt result paired with the list of command vectors handed to
run_sudo_command (the inert validation echoes), in order. -/
def prompt_for_password (env : List String → String → SpawnOutcome)
    (cache : Option String) :
    List (Option String) → PromptResult × List (List String)
  | [] =>
    match optTruthy cache with
    | some p => (PromptResult.returned (some p) cache, [])
    | none => (PromptResult.exhausted cache, [])
  | none :: _ =>
    match optTruthy cache with
    | some p => (PromptResult.returned (some p) cache, [])
    | none => (PromptResult.returned none cache, [])
  | some p :: rest =>
    match optTruthy cache with
    | some q => (PromptResult.returned (some q) cache, [])
    | none =>
      match run_sudo_command ["echo", "verified"] p env with
      | Except.error e => (PromptResult.raised e cache, [["echo", "verified"]])
      | Except.ok r =>
        if r.success then
          (PromptResult.returned (some p) (some p), [["echo", "verified"]])
        else
          let next := prompt_for_password env cache rest
          (next.1, ["echo", "verified"] :: next.2)

/-- The cache component of a `PromptResult`. -/
def resultCache : PromptResult → Option String
  | PromptResult.returned _ c => c
  | PromptResult.exhausted c => c
  | PromptResult.raised _ c => c

/-- The password returned to the caller, when the prompt returned one. -/
def resultPassword : PromptResult → Option String
  | PromptResult.returned p? _ => p?
  | PromptResult.exhausted _ => none
  | PromptResult.raised _ _ => none

/-- Whether the inert validation echo of prompt_for_password succeeds
for a given secret in a given environment. -/
def isValidated (env : List String → String → SpawnOutcome) (p : String) : Bool :=
  match run_sudo_command ["echo", "verified"] p env with
  | Except.ok r => r.success
  | Except.error _ => false

/-- Python str.isdigit for ASCII input: non-empty and all characters
decimal digits.  This is the dispatch test of set_default_os and
reboot_selected (`index.isdigit()`). -/
def pyIsDigit (s : String) : Bool :=
  decide (s.toList ≠ []) && s.toList.all Char.isDigit

/-- Parse of the current UEFI boot order inside set_default_os
(OS_Controller.py lines 246-250): scan stdout lines for the first one
starting with the BootOrder label, take the text after the first
colon, strip it, and split on commas.  No matching line yields the
empty list (the loop's initial value). -/
def parseBootOrder (stdout : String) : List String :=
  let label := ['B', 'o', 'o', 't', 'O', 'r', 'd', 'e', 'r', ':']
  match (splitOnChar lf stdout.toList).find? (fun l => label.isPrefixOf l) with
  | none => []
  | some l =>
    ((splitOnChar (Char.ofNat 58) l).getD 1 []
      |> trimChars
      |> splitOnChar (Char.ofNat 44)).map (fun cs => String.mk cs)

/-- The new-order computation of OS_Controller.py line 251:
`new_order = [index] + [x for x in current_order if x != index]`. -/
def new_boot_order (index : String) (current_order : List String) : List String :=
  index :: current_order.filter (fun x => x != index)

/-- A dialog box or other terminal outcome of a button handler.
`infoDialog` models QMessageBox.information, `errorDialog` models
QMessageBox.critical and QMessageBox.warning, each carrying the exact
title and text the source passes.  `pythonError` models an uncaught
exception escaping the handler; `promptStuck` is the model artifact
of running out of scripted dialog responses. -/
inductive UiOutcome where
  | noSelection
  | cancelled
  | notConfirmed
  | promptStuck
  | pythonError (err : String)
  | infoDialog (title text : String)
  | errorDialog (title text : String)
deriving DecidableEq

/-- Shallow embedding of OSBootSelector.set_default_os
(OS_Controller.py lines 228-257).  `index?` is the value returned by
get_selected_index, `cache`/`inputs` drive prompt_for_password,
`readSpawn` is the outcome of the unprivileged
`subprocess.run(['efibootmgr'])` boot-order read, and `env` is the
elevated-command environment.  Returns the terminal UI outcome and
the ordered list of command vectors handed to run_sudo_command
(validation echoes included). -/
def set_default_os (index? : Option String) (cache : Option String)
    (inputs : List (Option String)) (readSpawn : SpawnOutcome)
    (env : List String → String → SpawnOutcome) : UiOutcome × List (List String) :=
  match optTruthy index? with
  | none => (UiOutcome.noSelection, [])
  | some index =>
    match prompt_for_password env cache inputs with
    | (PromptResult.exhausted _, tr) => (UiOutcome.promptStuck, tr)
    | (PromptResult.raised e _, tr) => (UiOutcome.pythonError e, tr)
    | (PromptResult.returned pw? _, tr) =>
      match optTruthy pw? with
      | none => (UiOutcome.cancelled, tr)
      | some password =>
        if pyIsDigit index then
          let cmd := ["grub-set-default", index]
          match run_sudo_command cmd password env with
          | Except.error e => (UiOutcome.pythonError e, tr ++ [cmd])
          | Except.ok r =>
            if r.success then
              (UiOutcome.infoDialog "Success"
                ("Set GRUB entry #" ++ index ++ " as default."), tr ++ [cmd])
            else
              (UiOutcome.errorDialog "Error"
                ("Failed to set GRUB default.\n" ++ r.errorMsg.getD ""), tr ++ [cmd])
        else
          match readSpawn with
          | SpawnOutcome.fileNotFound => (UiOutcome.pythonError "FileNotFoundError", tr)
          | SpawnOutcome.calledProcessError e => (UiOutcome.pythonError e, tr)
          | SpawnOutcome.completed _ stdout _ =>
            let current_order := parseBootOrder stdout
            let cmd := ["efibootmgr", "--bootorder"] ++ new_boot_order index current_order
            match run_sudo_command cmd password env with
            | Except.error e => (UiOutcome.pythonError e, tr ++ [cmd])
            | Except.ok r =>
              if r.success then
                (UiOutcome.infoDialog "Success"
                  ("Set Boot" ++ index ++ " as default UEFI boot option."), tr ++ [cmd])
              else
                (UiOutcome.errorDialog "Error"
                  ("Failed to set UEFI boot order.\n" ++ r.errorMsg.getD ""), tr ++ [cmd])

/-- Shallow embedding of OSBootSelector.reboot_selected
(OS_Controller.py lines 189-226).  `uefiMode` is is_uefi_mode(),
`efivarfsMounted` is is_efivarfs_mounted(), `confirm` is the answer
to the confirmation dialog.  Both branches of the source's
`index.isdigit()` dispatch issue the identical command, which the
embedding reproduces by not branching.  Returns the terminal UI
outcome and the ordered list of command vectors handed to
run_sudo_command (validation echoes included). -/
def reboot_selected (index? : Option String) (cache : Option String)
    (inputs : List (Option String)) (uefiMode efivarfsMounted confirm : Bool)
    (env : List String → String → SpawnOutcome) : UiOutcome × List (List String) :=
  match optTruthy index? with
  | none => (UiOutcome.noSelection, [])
  | some index =>
    if !uefiMode then
      (UiOutcome.errorDialog "Error" "System is not in UEFI mode.", [])
    else if !efivarfsMounted then
      (UiOutcome.errorDialog "Error"
        "EFI variables are not accessible. Ensure efivarfs is mounted.", [])
    else if !confirm then
      (UiOutcome.notConfirmed, [])
    else
      match prompt_for_password env cache inputs with
      | (PromptResult.exhausted _, tr) => (UiOutcome.promptStuck, tr)
      | (PromptResult.raised e _, tr) => (UiOutcome.pythonError e, tr)
      | (PromptResult.returned pw? _, tr) =>
        match optTruthy pw? with
        | none => (UiOutcome.cancelled, tr)
        | some password =>
          let cmd := ["efibootmgr", "-n", index]
          match run_sudo_command cmd password env with
          | Except.error e => (UiOutcome.pythonError e, tr ++ [cmd])
          | Except.ok r =>
            if r.success then
              match run_sudo_command ["reboot"] password env with
              | Except.error e => (UiOutcome.pythonError e, tr ++ [cmd, ["reboot"]])
              | Except.ok r2 =>
                if r2.success then
                  (UiOutcome.infoDialog "Rebooting" "System is rebooting now...",
                    tr ++ [cmd, ["reboot"]])
                else
                  (UiOutcome.errorDialog "Reboot Failed"
                    ("Failed to reboot.\n" ++ r2.errorMsg.getD ""),
                    tr ++ [cmd, ["reboot"]])
            else
              (UiOutcome.errorDialog "BootNext Failed"
                ("Failed to set one-time boot.\n" ++ r.errorMsg.getD ""), tr ++ [cmd])

/-- The literal character sequence the GRUB menu-entry pattern of
OS_Controller.py line 46 requires before the quoted title: the word
menuentry, a space, and an opening single quote. -/
def grubMenuKey : List Char :=
  ['m', 'e', 'n', 'u', 'e', 'n', 't', 'r', 'y', Char.ofNat 32, squote]

/-- The search for the pattern `menuentry `, quote, `([^...]+)`, quote
on one line, as performed by re.search: starting positions are tried
left to right; at a candidate position the literal key must match,
then the capture is the maximal run of non-quote characters, which
must be non-empty and followed by a closing quote, otherwise the scan
resumes at the next position. -/
def grubTitleFrom : List Char → Option (List Char)
  | [] => none
  | c :: cs =>
    let here : Option (List Char) :=
      if grubMenuKey.isPrefixOf (c :: cs) then
        let rest := (c :: cs).drop grubMenuKey.length
        let run := rest.takeWhile (fun ch => ch ≠ squote)
        if run.length ≠ 0 ∧ run.length < rest.length then some run else none
      else none
    match here with
    | some r => some r
    | none => grubTitleFrom cs

/-- The per-line regex match of get_grub_entries: the captured quoted
title, if the line matches. -/
def grubLineTitle (line : String) : Option String :=
  (grubTitleFrom line.toList).map (fun t => String.mk t)

/-- Shallow embedding of get_grub_entries (OS_Controller.py lines
41-52).  The file read is modelled as either an exception while
opening (`Except.error`, e.g. the file is missing) or the list of
lines; the loop appends the captured title of every matching line.
Any exception is caught, logged, and the entries gathered so far
(the empty list when open failed) are returned.  `grubStep` is the
loop body: append the captured title of a matching line. -/
def grubStep (entries : List String) (line : String) : List String :=
  match grubLineTitle line with
  | some t => entries ++ [t]
  | none => entries

/-- Shallow embedding of get_grub_entries (OS_Controller.py lines
41-52), continued: the loop over the lines. -/
def get_grub_entries (file : Except Unit (List String)) : List String :=
  match file with
  | Except.error _ => []
  | Except.ok lines => lines.foldl grubStep []

/-- Hexadecimal-digit test of the character class in the UEFI
boot-entry pattern of OS_Controller.py line 60. -/
def hexDigit (c : Char) : Bool :=
  c.isDigit || (Char.ofNat 65 ≤ c && c ≤ Char.ofNat 70) ||
    (Char.ofNat 97 ≤ c && c ≤ Char.ofNat 102)

/-- Attempt to match the pattern `Boot`, four hex digits, optional
star, whitespace, rest-of-line, anchored at the head of the list.
Returns the two capture groups (boot number, name).  Mirrors the
regex semantics: the whitespace run is taken greedily but at least
one trailing character must remain for the second group, so when the
tail is whitespace only, the group is the last whitespace character. -/
def uefiMatchAt (l : List Char) : Option (List Char × List Char) :=
  if ['B', 'o', 'o', 't'].isPrefixOf l then
    let rest := l.drop 4
    let hex := rest.take 4
    if hex.length = 4 ∧ hex.all hexDigit then
      let rest2 := rest.drop 4
      let rest3 :=
        match rest2 with
        | c :: cs => if c = star then cs else rest2
        | [] => rest2
      let ws := rest3.takeWhile pyWhitespace
      let rem := rest3.drop ws.length
      if ws.length = 0 then none
      else if rem.length ≠ 0 then some (hex, rem)
      else if 2 ≤ ws.length then some (hex, ws.drop (ws.length - 1))
      else none
    else none
  else none

/-- re.search for the UEFI boot-entry pattern: starting positions are
tried left to right. -/
def uefiSearch : List Char → Option (List Char × List Char)
  | [] => none
  | c :: cs =>
    match uefiMatchAt (c :: cs) with
    | some r => some r
    | none => uefiSearch cs

/-- Shallow embedding of get_uefi_entries (OS_Controller.py lines
55-70).  The efibootmgr invocation is modelled by its
`SpawnOutcome`; a FileNotFoundError and every other exception are
caught and yield the entries gathered so far (none).  The returncode
is never consulted: only stdout is parsed, each matching line
yielding the (boot number, stripped name) pair. -/
def get_uefi_entries (spawn : SpawnOutcome) : List (String × String) :=
  match spawn with
  | SpawnOutcome.fileNotFound => []
  | SpawnOutcome.calledProcessError _ => []
  | SpawnOutcome.completed _ stdout _ =>
    (splitOnChar lf stdout.toList).foldl (fun entries line =>
      match uefiSearch line with
      | some (b, n) => entries ++ [(String.mk b, String.mk (trimChars n))]
      | none => entries) []

/-- Which backing store a row of the inventory came from: the UEFI
loop of setup_ui (OS_Controller.py lines 125-128) or the GRUB loop
(lines 130-133). -/
inductive BackingStore where
  | uefi
  | grub
deriving DecidableEq

/-- One row of the list widget built by setup_ui: the display string,
the key stored for it in entry_map, the loop that produced it, and
whether the default-marking pass (lines 137-146) marked it. -/
structure InventoryRow where
  display : String
  key : String
  store : BackingStore
  isDefault : Bool
deriving DecidableEq

/-- Shallow embedding of the inventory construction in
OSBootSelector.setup_ui (OS_Controller.py lines 121-146): UEFI
entries first, then GRUB entries keyed by their decimal ordinal, then
every row compared against the single resolved default value
(get_default_entry, the GRUB saved_entry) — `None` compares unequal
to every key. -/
def build_inventory (uefiEntries : List (String × String))
    (grubEntries : List String) (defaultEntry : Option String) : List InventoryRow :=
  let uefiRows := uefiEntries.map (fun e =>
    (e.2 ++ " (Boot" ++ e.1 ++ ")", e.1, BackingStore.uefi))
  let grubRows := grubEntries.enum.map (fun e =>
    (e.2 ++ " (GRUB" ++ Nat.repr e.1 ++ ")", Nat.repr e.1, BackingStore.grub))
  (uefiRows ++ grubRows).map (fun r =>
    { display := r.1, key := r.2.1, store := r.2.2,
      isDefault := match defaultEntry with
        | some d => d == r.2.1
        | none => false })

/-- The GRUB loop of setup_ui (OS_Controller.py lines 130-133) in
isolation: the display string and the entry_map key (`str(i)`) for
each GRUB entry, ids being zero-based decimal ordinals. -/
def grub_display_rows (entries : List String) : List (String × String) :=
  entries.enum.map (fun e => (e.2 ++ " (GRUB" ++ Nat.repr e.1 ++ ")", Nat.repr e.1))

/-- Decimal value of a digit-character list, most significant digit
first, with an accumulator; inverts `Nat.repr` for the injectivity
argument behind inventory-key uniqueness. -/
def digitsVal : Nat → List Char → Nat
  | acc, [] => acc
  | acc, c :: cs => digitsVal (10 * acc + (c.toNat - 48)) cs

/-- Test fixture: an environment in which every spawned command
completes with exit code 0. -/
def demoEnvAllOk : List String → String → SpawnOutcome :=
  fun _ _ => SpawnOutcome.completed 0 "" ""

/-- Test fixture: an environment in which every spawned command
completes with exit code 1 and the stderr text `denied`. -/
def demoEnvAllFail : List String → String → SpawnOutcome :=
  fun _ _ => SpawnOutcome.completed 1 "" "denied"

/-- Test fixture: an environment in which the reboot command fails
with stderr `boom` and every other command succeeds. -/
def demoEnvRebootFails : List String → String → SpawnOutcome :=
  fun args _ =>
    if args = ["sudo", "-S", "reboot"] then SpawnOutcome.completed 1 "" "boom"
    else SpawnOutcome.completed 0 "" ""

/-- Test fixture: an environment in which sudo accepts exactly the
stdin text fed for the password `good`, rejecting everything else
with exit code 1. -/
def demoEnvPassword : List String → String → SpawnOutcome :=
  fun _ input =>
    if input = "good\n" then SpawnOutcome.completed 0 "verified" ""
    else SpawnOutcome.completed 1 "" "sudo: 1 incorrect password attempt"

/-- Helper: a truthy optional string is the underlying value. -/
theorem optTruthy_eq_some {c : Option String} {q : String}
    (h : optTruthy c = some q) : c = some q := by
  cases c with
  | none => simp [optTruthy] at h
  | some s =>
    by_cases hs : s = "" <;> simp [optTruthy, hs] at h <;> simp [h]

/-- Helper: a non-empty string is its own truthy value. -/
theorem optTruthy_some_of_ne {s : String} (h : s ≠ "") :
    optTruthy (some s) = some s := by
  simp [optTruthy, h]

/-- Claim C2: for every command vector and credential the Privileged
Executor returns a CommandResult and never lets an exception escape.
The code contradicts this: its except clause only catches
subprocess.CalledProcessError, which subprocess.run (called without
check=True) never raises, so the FileNotFoundError raised when the
elevation binary is absent escapes uncaught — on both platforms. -/
theorem C2_spawn_fault_raises :
    run_sudo_command ["echo", "verified"] "secret"
        (fun _ _ => SpawnOutcome.fileNotFound) = Except.error "FileNotFoundError"
    ∧ Windows.run_sudo_command ["echo", "verified"] "secret"
        (fun _ => SpawnOutcome.fileNotFound) = Except.error "FileNotFoundError" :=
  ⟨rfl, rfl⟩

/-- Claim C5: in the Windows variant the result of run_sudo_command
is independent of the password argument, because the source wires no
input channel to the spawned runas process: for any fixed command and
environment, two runs with different passwords are equal. -/
theorem C5_windows_password_independent (cmd : List String) (p₁ p₂ : String)
    (env : List String → SpawnOutcome) :
    Windows.run_sudo_command cmd p₁ env = Windows.run_sudo_command cmd p₂ env :=
  rfl

/-- Claim C9 (counterexample): the claim says a non-zero exit of the
firmware query tool yields an empty sequence, but the UEFI adapter
never consults the exit status — with exit code 1 and a parseable
stdout line it returns a non-empty entry list. -/
theorem C9_nonzero_exit_counterexample :
    get_uefi_entries (SpawnOutcome.completed 1 "Boot0001* Linux" "")
        = [("0001", "Linux")]
    ∧ ([("0001", "Linux")] : List (String × String)) ≠ [] :=
  ⟨by decide, by decide⟩

/-- Claim C9 (amended): the adapters are total and never raise; a
missing or unreadable config file and an absent query tool yield the
empty sequence, but the exit status is ignored — for a fixed stdout
the UEFI adapter's result is the same under every exit code, so a
non-zero exit returns whatever entries parse from captured stdout. -/
theorem C9_adapters_total_amended (rc₁ rc₂ : Int) (out err₁ err₂ : String) :
    get_grub_entries (Except.error ()) = []
    ∧ get_grub_entries (Except.ok []) = []
    ∧ get_uefi_entries SpawnOutcome.fileNotFound = []
    ∧ get_uefi_entries (SpawnOutcome.completed rc₁ out err₁)
        = get_uefi_entries (SpawnOutcome.completed rc₂ out err₂) :=
  ⟨rfl, rfl, rfl, rfl⟩

/-- Claim C1 (counterexample): the claim says that when no BootOrder
line is parsed the operation aborts before any write, but on a query
output with no such line set_default_os still issues the privileged
write, with a boot order consisting solely of the selected id. -/
theorem C1_no_order_write_counterexample :
    set_default_os (some "000A") (some "pw") []
        (SpawnOutcome.completed 0 "No BootOrder var" "") demoEnvAllOk
      = (UiOutcome.infoDialog "Success" "Set Boot000A as default UEFI boot option.",
         [["efibootmgr", "--bootorder", "000A"]]) := by
  decide

/-- Claim C10 (counterexample): both universally quantified parts of
the claim fail on one input.  When the UEFI adapter output repeats a
boot number (the code never dedupes), the inventory contains two
entries with the identical (backing store, id) pair, refuting the
pair-uniqueness conjunct over arbitrary adapter outputs; and the
single resolved default (the GRUB saved_entry) is compared against
UEFI keys too, so a saved_entry equal to a UEFI boot number marks
those UEFI entries as default, refuting the never-matched-across-
stores conjunct. -/
theorem C10_duplicate_and_cross_store_counterexample :
    build_inventory [("0001", "Linux"), ("0001", "Linux")] ["Ubuntu"] (some "0001")
      = [⟨"Linux (Boot0001)", "0001", BackingStore.uefi, true⟩,
         ⟨"Linux (Boot0001)", "0001", BackingStore.uefi, true⟩,
         ⟨"Ubuntu (GRUB0)", "0", BackingStore.grub, false⟩]
    ∧ ¬ ((build_inventory [("0001", "Linux"), ("0001", "Linux")] ["Ubuntu"]
          (some "0001")).map (fun row => (row.store, row.key))).Nodup := by
  refine ⟨by decide, by decide⟩

/-- Claim C3: for every current UEFI boot order containing the
selected id, the new order computed by set_default_os moves that id
to the front while every other id keeps its relative position: the
result is the id consed onto the filtered remainder, has the same
length, stays duplicate-free, starts with the id, the remainder is a
sublist of the old order (relative order preserved), and every other
id keeps its multiplicity. -/
theorem C3_new_boot_order_moves_front (index : String) (order : List String)
    (y : String) (hmem : index ∈ order) (hnd : order.Nodup) (hy : y ≠ index) :
    new_boot_order index order = index :: order.filter (fun x => x != index)
    ∧ (new_boot_order index order).length = order.length
    ∧ (new_boot_order index order).Nodup
    ∧ (new_boot_order index order).head? = some index
    ∧ List.Sublist (order.filter (fun x => x != index)) order
    ∧ List.count y (new_boot_order index order) = List.count y order
    ∧ index ∈ new_boot_order index order := by
  have hfilter : order.filter (fun x => x != index) = order.erase index :=
    (hnd.erase_eq_filter index).symm
  refine ⟨rfl, ?_, ?_, rfl, List.filter_sublist order, ?_, List.mem_cons_self index _⟩
  · have hpos : 0 < order.length :=
      List.length_pos.mpr (List.ne_nil_of_mem hmem)
    have := List.length_erase_of_mem hmem
    simp only [new_boot_order, List.length_cons, hfilter, this]
    omega
  · refine List.nodup_cons.mpr ⟨?_, hnd.filter _⟩
    intro hin
    have := (List.mem_filter.mp hin).2
    simp at this
  · have h1 : List.count y (new_boot_order index order)
        = List.count y (order.filter (fun x => x != index)) :=
      List.count_cons_of_ne hy _
    have h2 : List.count y (order.filter (fun x => x != index))
        = List.count y order :=
      List.count_filter (by simp [hy])
    rw [h1, h2]

/-- Claim C3 witness: the spec example order with the selected id in
third position. -/
theorem C3_new_boot_order_moves_front_witness :
    ("000A" ∈ ["0001", "0002", "000A", "0003"]
      ∧ (["0001", "0002", "000A", "0003"] : List String).Nodup
      ∧ "0002" ≠ "000A")
    ∧ (new_boot_order "000A" ["0001", "0002", "000A", "0003"]
          = "000A" :: (["0001", "0002", "000A", "0003"] : List String).filter
              (fun x => x != "000A")
       ∧ (new_boot_order "000A" ["0001", "0002", "000A", "0003"]).length
          = (["0001", "0002", "000A", "0003"] : List String).length
       ∧ (new_boot_order "000A" ["0001", "0002", "000A", "0003"]).Nodup
       ∧ (new_boot_order "000A" ["0001", "0002", "000A", "0003"]).head?
          = some "000A"
       ∧ List.Sublist ((["0001", "0002", "000A", "0003"] : List String).filter
              (fun x => x != "000A")) ["0001", "0002", "000A", "0003"]
       ∧ List.count "0002" (new_boot_order "000A" ["0001", "0002", "000A", "0003"])
          = List.count "0002" ["0001", "0002", "000A", "0003"]
       ∧ "000A" ∈ new_boot_order "000A" ["0001", "0002", "000A", "0003"]) :=
  ⟨⟨by decide, by decide, by decide⟩,
    C3_new_boot_order_moves_front "000A" ["0001", "0002", "000A", "0003"] "0002"
      (by decide) (by decide) (by decide)⟩

/-- Claim C1 (amended): when reading the current boot order yields no
BootOrder line, the UEFI SetDefault path of set_default_os does not
abort — it proceeds with an empty current order and still attempts
the privileged write, with a new boot order consisting solely of the
selected id. -/
theorem C1_no_order_still_writes (index pw : String) (cache : Option String)
    (inputs : List (Option String)) (c? : Option String)
    (ptr : List (List String)) (rc : Int) (stdout serr : String)
    (env : List String → String → SpawnOutcome)
    (hidx : index ≠ "") (hdig : pyIsDigit index = false)
    (hprompt : prompt_for_password env cache inputs
      = (PromptResult.returned (some pw) c?, ptr))
    (hpw : pw ≠ "") (hno : parseBootOrder stdout = []) :
    (set_default_os (some index) cache inputs
        (SpawnOutcome.completed rc stdout serr) env).2
      = ptr ++ [["efibootmgr", "--bootorder", index]] := by
  simp only [set_default_os, optTruthy_some_of_ne hidx, hprompt,
    optTruthy_some_of_ne hpw, hdig, Bool.false_eq_true, if_false, hno]
  have hcmd : ["efibootmgr", "--bootorder"] ++ new_boot_order index []
      = ["efibootmgr", "--bootorder", index] := rfl
  rcases hrun : run_sudo_command (["efibootmgr", "--bootorder"]
      ++ new_boot_order index []) pw env with e | r
  · simp [hrun, hcmd]
  · by_cases hs : r.success <;> simp [hrun, hcmd, hs]

/-- Claim C1 witness: a concrete query output with no BootOrder line,
a cached credential, and an all-accepting environment. -/
theorem C1_no_order_still_writes_witness :
    (("000A" : String) ≠ ""
      ∧ pyIsDigit "000A" = false
      ∧ prompt_for_password demoEnvAllOk (some "pw") []
          = (PromptResult.returned (some "pw") (some "pw"), [])
      ∧ ("pw" : String) ≠ ""
      ∧ parseBootOrder "No BootOrder var" = [])
    ∧ (set_default_os (some "000A") (some "pw") []
          (SpawnOutcome.completed 0 "No BootOrder var" "") demoEnvAllOk).2
        = [] ++ [["efibootmgr", "--bootorder", "000A"]] :=
  ⟨⟨by decide, by decide, by decide, by decide, by decide⟩,
    C1_no_order_still_writes "000A" "pw" (some "pw") [] (some "pw") [] 0
      "No BootOrder var" "" demoEnvAllOk (by decide) (by decide) (by decide)
      (by decide) (by decide)⟩

/-- Claim C6: in reboot_selected both preconditions are checked, in
order, before any privileged command is attempted — a non-UEFI system
yields its own specific error dialog with no command spawned, a UEFI
system without efivarfs yields a different specific error dialog with
no command spawned, and the two messages are distinct. -/
theorem C6_preconditions_checked_first (index : String) (hidx : index ≠ "")
    (cache : Option String) (inputs : List (Option String)) (b c : Bool)
    (env : List String → String → SpawnOutcome) :
    reboot_selected (some index) cache inputs false b c env
      = (UiOutcome.errorDialog "Error" "System is not in UEFI mode.", [])
    ∧ reboot_selected (some index) cache inputs true false c env
      = (UiOutcome.errorDialog "Error"
          "EFI variables are not accessible. Ensure efivarfs is mounted.", [])
    ∧ UiOutcome.errorDialog "Error" "System is not in UEFI mode."
      ≠ UiOutcome.errorDialog "Error"
          "EFI variables are not accessible. Ensure efivarfs is mounted." := by
  refine ⟨?_, ?_, by decide⟩ <;>
    simp [reboot_selected, optTruthy_some_of_ne hidx]

/-- Claim C6 witness: a concrete selection with both precondition
failures exercised. -/
theorem C6_preconditions_checked_first_witness :
    ("000A" : String) ≠ ""
    ∧ (reboot_selected (some "000A") none [] false false false demoEnvAllOk
        = (UiOutcome.errorDialog "Error" "System is not in UEFI mode.", [])
      ∧ reboot_selected (some "000A") none [] true false false demoEnvAllOk
        = (UiOutcome.errorDialog "Error"
            "EFI variables are not accessible. Ensure efivarfs is mounted.", [])
      ∧ UiOutcome.errorDialog "Error" "System is not in UEFI mode."
        ≠ UiOutcome.errorDialog "Error"
            "EFI variables are not accessible. Ensure efivarfs is mounted.") :=
  ⟨by decide,
    C6_preconditions_checked_first "000A" (by decide) none [] false false demoEnvAllOk⟩

/-- Claim C7: a successful set-next-boot followed by a failed reboot
produces the dangling-state dialog (boot target set, reboot not
performed), a failed set-next-boot produces the one-time-boot-failure
dialog, and the two outcomes are distinct. -/
theorem C7_dangling_state_distinct (index pw₁ pw₂ : String)
    (cache₁ cache₂ : Option String) (inputs₁ inputs₂ : List (Option String))
    (c₁ c₂ : Option String) (ptr₁ ptr₂ : List (List String)) (e₂ e₃ : String)
    (env₁ env₂ : List String → String → SpawnOutcome)
    (hidx : index ≠ "")
    (hp₁ : prompt_for_password env₁ cache₁ inputs₁
      = (PromptResult.returned (some pw₁) c₁, ptr₁))
    (hpw₁ : pw₁ ≠ "")
    (h1 : run_sudo_command ["efibootmgr", "-n", index] pw₁ env₁
      = Except.ok ⟨true, none⟩)
    (h2 : run_sudo_command ["reboot"] pw₁ env₁ = Except.ok ⟨false, some e₂⟩)
    (hp₂ : prompt_for_password env₂ cache₂ inputs₂
      = (PromptResult.returned (some pw₂) c₂, ptr₂))
    (hpw₂ : pw₂ ≠ "")
    (h3 : run_sudo_command ["efibootmgr", "-n", index] pw₂ env₂
      = Except.ok ⟨false, some e₃⟩) :
    reboot_selected (some index) cache₁ inputs₁ true true true env₁
      = (UiOutcome.errorDialog "Reboot Failed" ("Failed to reboot.\n" ++ e₂),
         ptr₁ ++ [["efibootmgr", "-n", index], ["reboot"]])
    ∧ reboot_selected (some index) cache₂ inputs₂ true true true env₂
      = (UiOutcome.errorDialog "BootNext Failed"
          ("Failed to set one-time boot.\n" ++ e₃),
         ptr₂ ++ [["efibootmgr", "-n", index]])
    ∧ UiOutcome.errorDialog "Reboot Failed" ("Failed to reboot.\n" ++ e₂)
      ≠ UiOutcome.errorDialog "BootNext Failed"
          ("Failed to set one-time boot.\n" ++ e₃) := by
  refine ⟨?_, ?_, by simp⟩
  · simp [reboot_selected, optTruthy_some_of_ne hidx, hp₁,
      optTruthy_some_of_ne hpw₁, h1, h2]
  · simp [reboot_selected, optTruthy_some_of_ne hidx, hp₂,
      optTruthy_some_of_ne hpw₂, h3]

/-- Claim C7 witness: two concrete environments, one failing only the
reboot command, one failing the set-next-boot command. -/
theorem C7_dangling_state_distinct_witness :
    (("000A" : String) ≠ ""
      ∧ prompt_for_password demoEnvRebootFails (some "pw") []
          = (PromptResult.returned (some "pw") (some "pw"), [])
      ∧ ("pw" : String) ≠ ""
      ∧ run_sudo_command ["efibootmgr", "-n", "000A"] "pw" demoEnvRebootFails
          = Except.ok ⟨true, none⟩
      ∧ run_sudo_command ["reboot"] "pw" demoEnvRebootFails
          = Except.ok ⟨false, some "Command failed: reboot\nboom"⟩
      ∧ prompt_for_password demoEnvAllFail (some "pw") []
          = (PromptResult.returned (some "pw") (some "pw"), [])
      ∧ run_sudo_command ["efibootmgr", "-n", "000A"] "pw" demoEnvAllFail
          = Except.ok ⟨false, some "Command failed: efibootmgr -n 000A\ndenied"⟩)
    ∧ (reboot_selected (some "000A") (some "pw") [] true true true demoEnvRebootFails
        = (UiOutcome.errorDialog "Reboot Failed"
            ("Failed to reboot.\n" ++ "Command failed: reboot\nboom"),
           [] ++ [["efibootmgr", "-n", "000A"], ["reboot"]])
      ∧ reboot_selected (some "000A") (some "pw") [] true true true demoEnvAllFail
        = (UiOutcome.errorDialog "BootNext Failed"
            ("Failed to set one-time boot.\n"
              ++ "Command failed: efibootmgr -n 000A\ndenied"),
           [] ++ [["efibootmgr", "-n", "000A"]])
      ∧ UiOutcome.errorDialog "Reboot Failed"
            ("Failed to reboot.\n" ++ "Command failed: reboot\nboom")
        ≠ UiOutcome.errorDialog "BootNext Failed"
            ("Failed to set one-time boot.\n"
              ++ "Command failed: efibootmgr -n 000A\ndenied")) :=
  ⟨⟨by decide, by decide, by decide, rfl, rfl, by decide, rfl⟩,
    C7_dangling_state_distinct "000A" "pw" "pw" (some "pw") (some "pw") [] []
      (some "pw") (some "pw") [] [] "Command failed: reboot\nboom"
      "Command failed: efibootmgr -n 000A\ndenied" demoEnvRebootFails demoEnvAllFail
      (by decide) (by decide) (by decide) rfl rfl (by decide)
      (by decide) rfl⟩

/-- Claim C4: across every iteration of the password-prompt loop, the
credential cache and the returned credential only ever hold a secret
whose inert echo validation succeeded: assuming the incoming cache
already satisfies this, any secret found in the final cache or
returned to the caller validates — so a rejected secret is never
cached and never handed to a subsequent privileged call. -/
theorem C4_cache_only_validated (env : List String → String → SpawnOutcome)
    (cache : Option String) (inputs : List (Option String)) (p : String)
    (hc : ∀ q, cache = some q → isValidated env q = true)
    (hp : resultCache (prompt_for_password env cache inputs).1 = some p
        ∨ resultPassword (prompt_for_password env cache inputs).1 = some p) :
    isValidated env p = true := by
  revert hp
  induction inputs with
  | nil =>
    intro hp
    rcases hot : optTruthy cache with _ | q <;>
      simp [prompt_for_password, hot, resultCache, resultPassword] at hp
    · exact hc p hp
    · rcases hp with hp | hp
      · exact hc p hp
      · exact hc p (hp ▸ optTruthy_eq_some hot)
  | cons head rest ih =>
    cases head with
    | none =>
      intro hp
      rcases hot : optTruthy cache with _ | q <;>
        simp [prompt_for_password, hot, resultCache, resultPassword] at hp
      · exact hc p hp
      · rcases hp with hp | hp
        · exact hc p hp
        · exact hc p (hp ▸ optTruthy_eq_some hot)
    | some p' =>
      intro hp
      rcases hot : optTruthy cache with _ | q
      · rcases hrun : run_sudo_command ["echo", "verified"] p' env with e | r
        · simp [prompt_for_password, hot, hrun, resultCache, resultPassword] at hp
          exact hc p hp
        · by_cases hs : r.success
          · simp [prompt_for_password, hot, hrun, hs, resultCache,
              resultPassword] at hp
            subst hp
            simp [isValidated, hrun, hs]
          · simp only [prompt_for_password, hot, hrun, hs, Bool.false_eq_true,
              if_false] at hp
            exact ih hp
      · simp [prompt_for_password, hot, resultCache, resultPassword] at hp
        rcases hp with hp | hp
        · exact hc p hp
        · exact hc p (hp ▸ optTruthy_eq_some hot)

/-- Claim C4 witness: an empty cache, a rejected first secret and an
accepted second secret under a concrete environment. -/
theorem C4_cache_only_validated_witness :
    (∀ q, (none : Option String) = some q → isValidated demoEnvPassword q = true)
    ∧ (resultCache (prompt_for_password demoEnvPassword none
          [some "bad", some "good"]).1 = some "good"
       ∨ resultPassword (prompt_for_password demoEnvPassword none
          [some "bad", some "good"]).1 = some "good")
    ∧ isValidated demoEnvPassword "good" = true := by
  refine ⟨?_, ?_, ?_⟩
  · exact fun _ h => nomatch h
  · exact Or.inl (by decide)
  · exact C4_cache_only_validated demoEnvPassword none [some "bad", some "good"] "good"
      (fun _ h => nomatch h) (Or.inl (by decide))

/-- Helper: the append-accumulator loop of get_grub_entries equals
filterMap over the per-line regex match. -/
theorem grub_foldl_eq_filterMap (lines : List String) (acc : List String) :
    List.foldl grubStep acc lines = acc ++ lines.filterMap grubLineTitle := by
  induction lines generalizing acc with
  | nil => simp
  | cons l ls ih =>
    rcases h : grubLineTitle l with _ | t <;>
      simp [grubStep, List.foldl_cons, List.filterMap_cons, h, ih]

/-- Helper: the length of a filterMap is the count of matching
elements. -/
theorem length_filterMap_eq_countP {α β : Type} (f : α → Option β) (l : List α) :
    (l.filterMap f).length = l.countP (fun a => (f a).isSome) := by
  induction l with
  | nil => rfl
  | cons a t ih =>
    rcases h : f a with _ | b <;>
      simp [List.filterMap_cons, List.countP_cons, h, ih]

/-- Claim C8: for every GRUB configuration text, the adapter returns
exactly the titles of the lines matching the quoted menu-entry
pattern, in file order; their number is the number of matching lines,
and the ids assigned by the inventory loop are the zero-based decimal
ordinals 0..N-1. -/
theorem C8_grub_adapter_enumerates (lines : List String) :
    get_grub_entries (Except.ok lines) = lines.filterMap grubLineTitle
    ∧ (get_grub_entries (Except.ok lines)).length
        = lines.countP (fun l => (grubLineTitle l).isSome)
    ∧ (grub_display_rows (get_grub_entries (Except.ok lines))).map Prod.snd
        = (List.range (lines.countP (fun l => (grubLineTitle l).isSome))).map
            Nat.repr := by
  have h1 : get_grub_entries (Except.ok lines) = lines.filterMap grubLineTitle := by
    simp [get_grub_entries, grub_foldl_eq_filterMap]
  have h2 : (get_grub_entries (Except.ok lines)).length
      = lines.countP (fun l => (grubLineTitle l).isSome) := by
    rw [h1, length_filterMap_eq_countP]
  have h3 : ∀ es : List String,
      (grub_display_rows es).map Prod.snd = (List.range es.length).map Nat.repr := by
    intro es
    simp only [grub_display_rows, List.map_map]
    have hcomp : (Prod.snd ∘ fun e : Nat × String =>
        (e.2 ++ " (GRUB" ++ Nat.repr e.1 ++ ")", Nat.repr e.1))
        = Nat.repr ∘ Prod.fst := rfl
    rw [hcomp, ← List.map_map, List.enum_map_fst]
  refine ⟨h1, h2, ?_⟩
  rw [h3, h2]

/-- Helper: evaluating digits distributes over list append. -/
theorem digitsVal_append (l m : List Char) (acc : Nat) :
    digitsVal acc (l ++ m) = digitsVal (digitsVal acc l) m := by
  induction l generalizing acc with
  | nil => rfl
  | cons c cs ih => exact ih (10 * acc + (c.toNat - 48))

/-- Helper: the digit characters of d < 10 decode back to d. -/
theorem digitChar_decode : ∀ d, d < 10 → (Nat.digitChar d).toNat - 48 = d := by
  decide

/-- Helper: Nat.toDigitsCore prepends its digits to the accumulator
list. -/
theorem toDigitsCore_append (f : Nat) : ∀ (n : Nat) (ds : List Char), n < f →
    Nat.toDigitsCore 10 f n ds = Nat.toDigitsCore 10 f n [] ++ ds := by
  induction f with
  | zero => exact fun n ds h => absurd h (Nat.not_lt_zero n)
  | succ f ih =>
    intro n ds h
    simp only [Nat.toDigitsCore]
    by_cases h0 : n / 10 = 0
    · simp [h0]
    · simp only [h0, if_false]
      have hpos : 0 < n := by
        rcases Nat.eq_zero_or_pos n with hz | hp
        · exact absurd (by simp [hz]) h0
        · exact hp
      have hlt : n / 10 < f := by
        have := Nat.div_lt_self hpos (by norm_num : (1 : Nat) < 10)
        omega
      rw [ih (n / 10) (Nat.digitChar (n % 10) :: ds) hlt,
        ih (n / 10) [Nat.digitChar (n % 10)] hlt, List.append_assoc]
      rfl

/-- Helper: Nat.toDigitsCore is independent of the fuel, given enough
of it. -/
theorem toDigitsCore_fuel (f : Nat) : ∀ (g n : Nat), n < f → n < g →
    Nat.toDigitsCore 10 f n [] = Nat.toDigitsCore 10 g n [] := by
  induction f with
  | zero => exact fun g n h _ => absurd h (Nat.not_lt_zero n)
  | succ f ih =>
    intro g n hf hg
    cases g with
    | zero => exact absurd hg (Nat.not_lt_zero n)
    | succ g =>
      simp only [Nat.toDigitsCore]
      by_cases h0 : n / 10 = 0
      · simp [h0]
      · simp only [h0, if_false]
        have hpos : 0 < n := by
          rcases Nat.eq_zero_or_pos n with hz | hp
          · exact absurd (by simp [hz]) h0
          · exact hp
        have hlt : n / 10 < n := Nat.div_lt_self hpos (by norm_num)
        rw [toDigitsCore_append f (n / 10) [Nat.digitChar (n % 10)] (by omega),
          toDigitsCore_append g (n / 10) [Nat.digitChar (n % 10)] (by omega),
          ih g (n / 10) (by omega) (by omega)]

/-- Helper: digitsVal inverts Nat.toDigits base 10. -/
theorem digitsVal_toDigits (n : Nat) : digitsVal 0 (Nat.toDigits 10 n) = n := by
  induction n using Nat.strong_induction_on with
  | _ n ih =>
    have hunfold : Nat.toDigits 10 n
        = if n / 10 = 0 then [Nat.digitChar (n % 10)]
          else Nat.toDigitsCore 10 n (n / 10) [Nat.digitChar (n % 10)] := by
      simp only [Nat.toDigits, Nat.toDigitsCore]
    rw [hunfold]
    by_cases h0 : n / 10 = 0
    · have hn : n < 10 := by
        have := Nat.div_add_mod n 10
        have := Nat.mod_lt n (by norm_num : (0 : Nat) < 10)
        omega
      rw [if_pos h0]
      have hv : digitsVal 0 [Nat.digitChar (n % 10)]
          = 10 * 0 + ((Nat.digitChar (n % 10)).toNat - 48) := rfl
      rw [hv, Nat.mod_eq_of_lt hn]
      have := digitChar_decode n hn
      omega
    · rw [if_neg h0]
      have hpos : 0 < n := by
        rcases Nat.eq_zero_or_pos n with hz | hp
        · exact absurd (by simp [hz]) h0
        · exact hp
      have hlt : n / 10 < n := Nat.div_lt_self hpos (by norm_num)
      rw [toDigitsCore_append n (n / 10) [Nat.digitChar (n % 10)] hlt,
        toDigitsCore_fuel n (n / 10 + 1) (n / 10) hlt (Nat.lt_succ_self _),
        digitsVal_append]
      have hrec : digitsVal 0 (Nat.toDigitsCore 10 (n / 10 + 1) (n / 10) []) = n / 10 :=
        ih (n / 10) hlt
      rw [hrec]
      have hv : digitsVal (n / 10) [Nat.digitChar (n % 10)]
          = 10 * (n / 10) + ((Nat.digitChar (n % 10)).toNat - 48) := rfl
      rw [hv]
      have hmod : (Nat.digitChar (n % 10)).toNat - 48 = n % 10 :=
        digitChar_decode (n % 10) (Nat.mod_lt n (by norm_num))
      have := Nat.div_add_mod n 10
      omega

/-- Helper: the decimal representation of a natural number is
injective, hence the GRUB ordinal keys `str(i)` are pairwise
distinct. -/
theorem natRepr_injective : Function.Injective Nat.repr := by
  intro m n h
  have hdata : Nat.toDigits 10 m = Nat.toDigits 10 n := congrArg String.data h
  have hm := digitsVal_toDigits m
  have hn := digitsVal_toDigits n
  rw [hdata] at hm
  exact hm.symm.trans hn

/-- Claim C10 (amended): whenever the UEFI adapter output carries no
duplicate boot number, the inventory has no two rows with the same
(backing store, id) pair — in particular a GRUB entry 0 and a UEFI
entry 0000 stay distinct rows; however, the single resolved default
value (the GRUB saved_entry) is compared against the key of every
row, UEFI rows included. -/
theorem C10_unique_pairs_amended (u : List (String × String)) (g : List String)
    (d? : Option String) (r : InventoryRow)
    (hu : (u.map Prod.fst).Nodup) (hr : r ∈ build_inventory u g d?) :
    ((build_inventory u g d?).map (fun row => (row.store, row.key))).Nodup
    ∧ r.isDefault = (d? == some r.key) := by
  constructor
  · have hmap : (build_inventory u g d?).map (fun row => (row.store, row.key))
        = (u.map Prod.fst).map (fun k => (BackingStore.uefi, k))
          ++ (List.range g.length).map (fun i => (BackingStore.grub, Nat.repr i)) := by
      simp only [build_inventory, List.map_append, List.map_map]
      rw [← List.enum_map_fst g]
      simp only [List.map_map]
      rfl
    rw [hmap]
    refine List.nodup_append.mpr ⟨?_, ?_, ?_⟩
    · exact hu.map (fun a b hab => by simpa using hab)
    · refine (List.nodup_range g.length).map (fun a b hab => ?_)
      have hra : Nat.repr a = Nat.repr b := by simpa using hab
      exact natRepr_injective hra
    · intro x hx hy
      rcases List.mem_map.mp hx with ⟨k, _, hk⟩
      rcases List.mem_map.mp hy with ⟨i, _, hi⟩
      rw [← hk] at hi
      simp at hi
  · simp only [build_inventory] at hr
    rcases List.mem_map.mp hr with ⟨t, _, ht⟩
    rw [← ht]
    cases d? <;> rfl

/-- Claim C10 witness: one UEFI entry, one GRUB entry, and a resolved
default value matching neither. -/
theorem C10_unique_pairs_amended_witness :
    (((([("000A", "Linux")] : List (String × String)).map Prod.fst)).Nodup
      ∧ (⟨"Linux (Boot000A)", "000A", BackingStore.uefi, false⟩ : InventoryRow)
          ∈ build_inventory [("000A", "Linux")] ["Ubuntu"] (some "saved"))
    ∧ (((build_inventory [("000A", "Linux")] ["Ubuntu"] (some "saved")).map
          (fun row => (row.store, row.key))).Nodup
       ∧ (⟨"Linux (Boot000A)", "000A", BackingStore.uefi, false⟩ : InventoryRow).isDefault
          = ((some "saved" : Option String)
              == some (⟨"Linux (Boot000A)", "000A", BackingStore.uefi, false⟩
                : InventoryRow).key)) := by
  refine ⟨⟨?_, ?_⟩, ?_⟩
  · decide
  · decide
  · exact C10_unique_pairs_amended [("000A", "Linux")] ["Ubuntu"] (some "saved")
      ⟨"Linux (Boot000A)", "000A", BackingStore.uefi, false⟩ (by decide) (by decide)

end BootCtl
